import Mathlib

/-
Shallow embedding of `src/actions/os_actions.py` from the
charm-neutron-openvswitch repository.

Each action handler is modelled as a pure function from a `World` — a
snapshot of the external collaborators the Python code consults (the charm
configuration, the network-control API, the action-parameter store, the
deferred-event store, the status store) — to `Except String (List Event)`:
an `Except.error e` models a Python exception with message `e` escaping the
handler, and an `Except.ok events` models a normal return together with the
ordered trace of side-effecting collaborator calls the handler issued
(service pause/resume, agent update/delete, status and result reporting,
logging).  Fault-injection fields (`neutron_fault`, `helper_fault`) model
collaborator calls that raise.
-/

/-- An agent record as returned by the network-control API
(`neutron.get_network_agents_on_host`): the fields `os_actions.py` reads. -/
structure Agent where
  id : String
  binary : String
  admin_state_up : Bool
deriving DecidableEq, Repr

/-- One side-effecting collaborator call issued by a handler, in order. -/
inductive Event where
  | log (msg : String)
  | actionFail (msg : String)
  | functionFail (msg : String)
  | functionSet (fields : List (String × String))
  | statusSet (state : String) (msg : String)
  | servicePause (service : String)
  | serviceResume (service : String)
  | updateAgent (id : String) (admin_state_up : Bool)
  | deleteAgent (id : String)
  | pauseUnitHelper (exclude_services : List String)
  | resumeUnitHelper (exclude_services : List String)
  | restartServicesDeferredOnly
  | restartServices (services : List String)
  | assessStatus
  | configChangedHook (check_deferred_restarts : Bool)
  | clearDeferredHook (hook : String)
  | showDeferredEventsHelper
deriving DecidableEq, Repr

/-- A snapshot of the external state the handlers consult.

`api_agents` is what `neutron.get_network_agents_on_host` returns for this
unit's resolved host name; `deferred_only`, `services` and `run_hooks` are
what `action_get` returns for the corresponding parameters (`services` is
`none` when the parameter store holds no value, in which case Python's
`action_get` returns `None`); `status` is the `(state, message)` pair
`status_get` returns; `restart_permitted` and `deferred_hooks` are what the
deferred-event store answers.  `neutron_fault`/`helper_fault`, when `some e`,
make `neutron.get_neutron()` resp. `pause_unit_helper`/`resume_unit_helper`
raise an exception with message `e`. -/
structure World where
  enable_local_dhcp_and_metadata : Bool
  api_agents : List Agent
  deferred_only : Bool
  run_hooks : Bool
  services : Option String
  restart_permitted : Bool
  deferred_hooks : List String
  status : String × String
  neutron_fault : Option String
  helper_fault : Option String
deriving Repr

/-- `UNIT_REMOVED_MSG` constant from `os_actions.py`. -/
def UNIT_REMOVED_MSG : String := "Neutron agents were removed from the cloud"

/-- Tokenizer worker for `pySplit`: walk the characters, accumulating the
current (reversed) token and emitting it at each whitespace run or at the
end; empty tokens are never emitted. -/
def pySplitAux (cs : List Char) (acc : List Char) : List String :=
  match cs with
  | [] => if acc.isEmpty then [] else [String.mk acc.reverse]
  | c :: rest =>
    if c.isWhitespace then
      (if acc.isEmpty then [] else [String.mk acc.reverse]) ++ pySplitAux rest []
    else
      pySplitAux rest (c :: acc)

/-- Python's `str.split()` with no argument: split on runs of whitespace,
discarding empty tokens. -/
def pySplit (s : String) : List String :=
  pySplitAux s.data []

/-- Python's `str(bool)` as used by `'...: {}'.format(state)`. -/
def pyBool (b : Bool) : String := if b then "True" else "False"

/-- `_get_agents_binaries()`: the base binaries extended with the DHCP and
metadata agents when the `enable-local-dhcp-and-metadata` config is set. -/
def _get_agents_binaries (w : World) : List String :=
  let agents_binaries := ["neutron-openvswitch-agent", "neutron-l3-agent"]
  if w.enable_local_dhcp_and_metadata then
    agents_binaries ++ ["neutron-metadata-agent", "neutron-dhcp-agent"]
  else
    agents_binaries

/-- `_get_agents(neutron_client)`: log a warning when the API returned no
agents, then keep only the agents whose binary is expected.  Returns the
(log events, filtered agents) pair. -/
def _get_agents (w : World) : List Event × List Agent :=
  let warnEvents :=
    if w.api_agents.isEmpty then [Event.log "No agents registered"] else []
  let agents_binaries := _get_agents_binaries w
  (warnEvents,
   w.api_agents.filter (fun agent => agents_binaries.contains agent.binary))

/-- The `for agent in agents:` loop body of `_set_agents`: one
`update_agent` call per agent, in order. -/
def setAgentsLoop (agents : List Agent) (state : Bool) : List Event :=
  match agents with
  | [] => []
  | agent :: rest => Event.updateAgent agent.id state :: setAgentsLoop rest state

/-- `_set_agents(state)`: fetch the relevant agents and set each one's
`admin_state_up` to `state`; `get_neutron()` may raise. -/
def _set_agents (w : World) (state : Bool) : Except String (List Event) :=
  match w.neutron_fault with
  | some e => Except.error e
  | none =>
    let fetched := _get_agents w
    Except.ok (fetched.1 ++ setAgentsLoop fetched.2 state ++
      [Event.log ("Set neutron agents to admin_state_up: " ++ pyBool state)])

/-- `disable(args)`. -/
def disable (w : World) : Except String (List Event) :=
  _set_agents w false

/-- `enable(args)`. -/
def enable (w : World) : Except String (List Event) :=
  _set_agents w true

/-- `pause(args)`: delegate to `pause_unit_helper` excluding
`openvswitch-switch`; the helper may raise. -/
def pause (w : World) : Except String (List Event) :=
  match w.helper_fault with
  | some e => Except.error e
  | none => Except.ok [Event.pauseUnitHelper ["openvswitch-switch"]]

/-- `resume(args)`: delegate to `resume_unit_helper` excluding
`openvswitch-switch`; the helper may raise. -/
def resume (w : World) : Except String (List Event) :=
  match w.helper_fault with
  | some e => Except.error e
  | none => Except.ok [Event.resumeUnitHelper ["openvswitch-switch"]]

/-- `register_to_cloud(args)`: resume every binary from
`_get_agents_binaries`, then reset the unit status only when it is exactly
`(blocked, UNIT_REMOVED_MSG)`, and always report the verification command. -/
def register_to_cloud (w : World) : Except String (List Event) :=
  let agents_binaries := _get_agents_binaries w
  let resumeEvents := agents_binaries.map (fun binary => Event.serviceResume binary)
  let statusEvents :=
    if w.status.1 = "blocked" ∧ w.status.2 = UNIT_REMOVED_MSG then
      [Event.statusSet "active" "Unit is ready"]
    else []
  Except.ok ([Event.log "Starting neutron agents"] ++ resumeEvents ++ statusEvents ++
    [Event.functionSet
      [("command", "openstack network agent list"),
       ("message",
        "Neutron agents started. Use the openstack commandto verify that agents are registered.")]])

/-- The `for agent in agents:` loop body of `remove_from_cloud`:
`function_fail` for a still-enabled agent (then continue), pause the
agent's binary service, delete the agent. -/
def removeLoop (agents : List Agent) : List Event :=
  match agents with
  | [] => []
  | agent :: rest =>
    (if agent.admin_state_up then
       [Event.functionFail "Consider disabling neutron agents before deletion"]
     else []) ++
    [Event.servicePause agent.binary, Event.deleteAgent agent.id] ++
    removeLoop rest

/-- `remove_from_cloud(args)`: process each relevant agent, then set the
blocked status and report `UNIT_REMOVED_MSG`; `get_neutron()` may raise. -/
def remove_from_cloud (w : World) : Except String (List Event) :=
  match w.neutron_fault with
  | some e => Except.error e
  | none =>
    let fetched := _get_agents w
    Except.ok ([Event.log "Stopping neutron-openvswitch service"] ++ fetched.1 ++
      removeLoop fetched.2 ++
      [Event.log "Deleted neutron agents",
       Event.statusSet "blocked" UNIT_REMOVED_MSG,
       Event.functionSet [("message", UNIT_REMOVED_MSG)]])

/-- `_run_deferred_hooks()`: when a restart is NOT permitted and
`config-changed` is among the deferred hooks, replay `config_changed` with
`check_deferred_restarts=False` and clear the deferred marker. -/
def _run_deferred_hooks (w : World) : List Event :=
  if !w.restart_permitted then
    if !w.deferred_hooks.isEmpty && w.deferred_hooks.contains "config-changed" then
      [Event.configChangedHook false, Event.clearDeferredHook "config-changed"]
    else []
  else []

/-- `restart(args)`: validate the mutually exclusive `deferred-only` /
`services` parameters, optionally run deferred hooks, restart, reassess.
When the `services` parameter is absent, `action_get("services")` returns
`None` and the unconditional `.split()` raises an `AttributeError`. -/
def restart (w : World) : Except String (List Event) :=
  match w.services with
  | none => Except.error "NoneType object has no attribute split"
  | some s =>
    let deferred_only := w.deferred_only
    let services := pySplit s
    if deferred_only && !services.isEmpty then
      Except.ok [Event.actionFail "Cannot set deferred-only and services"]
    else if !(deferred_only || !services.isEmpty) then
      Except.ok [Event.actionFail "Please specify deferred-only or services"]
    else
      Except.ok (
        (if w.run_hooks then _run_deferred_hooks w else []) ++
        (if deferred_only then [Event.restartServicesDeferredOnly]
         else [Event.restartServices services]) ++
        [Event.assessStatus])

/-- `run_deferred_hooks(args)`: run `_run_deferred_hooks`, then the
deferred-only restart, then reassess status. -/
def run_deferred_hooks (w : World) : Except String (List Event) :=
  Except.ok (_run_deferred_hooks w ++
    [Event.restartServicesDeferredOnly, Event.assessStatus])

/-- `show_deferred_events(args)`: delegate entirely to the helper. -/
def show_deferred_events (_w : World) : Except String (List Event) :=
  Except.ok [Event.showDeferredEventsHelper]

/-- The `ACTIONS` registry of `os_actions.py`. -/
def ACTIONS : List (String × (World → Except String (List Event))) :=
  [("disable", disable),
   ("enable", enable),
   ("pause", pause),
   ("resume", resume),
   ("register-to-cloud", register_to_cloud),
   ("remove-from-cloud", remove_from_cloud),
   ("restart-services", restart),
   ("show-deferred-events", show_deferred_events),
   ("run-deferred-hooks", run_deferred_hooks)]

/-- `ACTIONS[action_name]` wrapped in the `try/except KeyError` lookup. -/
def lookupAction (action_name : String) :
    Option (World → Except String (List Event)) :=
  (ACTIONS.find? (fun p => p.1 == action_name)).map (fun p => p.2)

/-- `main(args)`: dispatch on the action name.  An unknown name is reported
as `"Action {name} undefined"` and returned; a handler fault is caught and
reported as `"Action {name} failed: {message}"`.  The result is the
dispatcher's own event trace paired with its return value (the Python
function returns the string only in the unknown-name branch).  Named
`mainDispatch` because Lean reserves `main` for the program entry point. -/
def mainDispatch (action_name : String) (w : World) : List Event × Option String :=
  match lookupAction action_name with
  | none =>
    let s := "Action " ++ action_name ++ " undefined"
    ([Event.actionFail s], some s)
  | some action =>
    match action w with
    | Except.ok events => (events, none)
    | Except.error e =>
      ([Event.actionFail ("Action " ++ action_name ++ " failed: " ++ e)], none)

/-
Helper lemmas shared by the claim theorems.
-/

/-- Python truthiness plus membership: `if deferred_hooks and x in deferred_hooks`
collapses to the membership test, since membership implies non-emptiness. -/
theorem emptiness_guard (l : List String) (a : String) :
    (!l.isEmpty && l.contains a) = l.contains a := by
  cases l <;> simp

/-- Case analysis of `_run_deferred_hooks`: it replays and clears
`config-changed` exactly when a restart is not permitted and the hook is
deferred, and does nothing otherwise. -/
theorem run_deferred_hooks_cases (w : World) :
    _run_deferred_hooks w =
      if w.restart_permitted = false ∧ w.deferred_hooks.contains "config-changed" = true then
        [Event.configChangedHook false, Event.clearDeferredHook "config-changed"]
      else [] := by
  unfold _run_deferred_hooks
  rw [emptiness_guard]
  cases hp : w.restart_permitted <;>
    cases hc : w.deferred_hooks.contains "config-changed" <;> simp [hp, hc]

/-- The `for` loop of `_set_agents` issues exactly one `update_agent` call
per agent, in order. -/
theorem setAgentsLoop_eq_map (agents : List Agent) (state : Bool) :
    setAgentsLoop agents state =
      agents.map (fun agent => Event.updateAgent agent.id state) := by
  induction agents with
  | nil => rfl
  | cons agent rest ih => simp [setAgentsLoop, ih]

/-- The `for` loop of `remove_from_cloud` as a flat map over the agents. -/
theorem removeLoop_eq_flatMap (agents : List Agent) :
    removeLoop agents =
      agents.flatMap (fun agent =>
        (if agent.admin_state_up then
           [Event.functionFail "Consider disabling neutron agents before deletion"]
         else []) ++
        [Event.servicePause agent.binary, Event.deleteAgent agent.id]) := by
  induction agents with
  | nil => rfl
  | cons agent rest ih => simp [removeLoop, ih]

/-
Concrete worlds used by counterexamples and witnesses.
-/

/-- A quiescent base world: no agents, no faults, no deferred hooks. -/
def baseWorld : World :=
  { enable_local_dhcp_and_metadata := false
    api_agents := []
    deferred_only := false
    run_hooks := false
    services := some ""
    restart_permitted := true
    deferred_hooks := []
    status := ("active", "Unit is ready")
    neutron_fault := none
    helper_fault := none }

/-- A world where a restart is not permitted and config-changed is deferred. -/
def w1 : World :=
  { baseWorld with restart_permitted := false, deferred_hooks := ["config-changed"] }

/-- Like `w1` but with a restart permitted. -/
def w1p : World :=
  { baseWorld with restart_permitted := true, deferred_hooks := ["config-changed"] }

/-- Claim C1 (counterexample): the claim says `_run_deferred_hooks` is a
no-op whenever the event store says a restart is not permitted, and replays
the deferred config-changed hook only when a restart is permitted.  The code
has the opposite guard (`if not deferred_events.is_restart_permitted():`):
in the world `w1` a restart is not permitted and config-changed is deferred,
yet the runner replays and clears the hook; in `w1p` a restart is permitted
with the same deferred hook, yet the runner does nothing. -/
theorem C1_counterexample :
    w1.restart_permitted = false ∧
    _run_deferred_hooks w1 =
      [Event.configChangedHook false, Event.clearDeferredHook "config-changed"] ∧
    w1p.restart_permitted = true ∧
    _run_deferred_hooks w1p = [] :=
  ⟨rfl, rfl, rfl, rfl⟩

/-- Claim C1 (amended): `_run_deferred_hooks` is a no-op when the external
event store says a restart IS currently permitted; only when a restart is
NOT permitted does it consult the deferred hook names and, if
`config-changed` is among them, re-invoke the config-changed handler with
re-deferral suppressed and then clear that hook's deferred marker.  No
other hook name is ever replayed or cleared. -/
theorem C1_run_deferred_hooks (w : World) :
    (w.restart_permitted = true → _run_deferred_hooks w = []) ∧
    (w.restart_permitted = false →
      _run_deferred_hooks w =
        if w.deferred_hooks.contains "config-changed" then
          [Event.configChangedHook false, Event.clearDeferredHook "config-changed"]
        else []) ∧
    (∀ hook, Event.clearDeferredHook hook ∈ _run_deferred_hooks w →
      hook = "config-changed") ∧
    (∀ b, Event.configChangedHook b ∈ _run_deferred_hooks w → b = false) := by
  rw [run_deferred_hooks_cases]
  refine ⟨fun hp => by simp [hp], fun hp => by simp [hp], ?_, ?_⟩
  · intro hook hmem
    simp at hmem
    exact hmem.2
  · intro b hmem
    simp at hmem
    exact hmem.2

/-- Witness for the amended C1 theorem at the concrete world `w1p`. -/
theorem C1_run_deferred_hooks_witness :
    _run_deferred_hooks w1p = [] :=
  (C1_run_deferred_hooks w1p).1 rfl

/-- Claim C2: whenever the `services` action parameter is present (`some s`)
and the mutual-exclusion contract is violated — `deferred-only` set together
with a non-empty tokenized service list, or neither set — `restart` reports
exactly one argument-error failure (`action_fail`) and returns normally:
the trace holds no deferred-hook replay, no service restart and no status
reassessment, and no fault is raised. -/
theorem C2_restart_validation (w : World) (s : String) (hs : w.services = some s)
    (hviol : ((w.deferred_only && !(pySplit s).isEmpty) ||
              (!w.deferred_only && (pySplit s).isEmpty)) = true) :
    restart w =
      Except.ok [Event.actionFail
        (if w.deferred_only then "Cannot set deferred-only and services"
         else "Please specify deferred-only or services")] := by
  cases hd : w.deferred_only <;> cases he : (pySplit s).isEmpty <;>
    simp [hd, he] at hviol ⊢ <;> simp [restart, hs, hd, he]

/-- A world violating the restart-services contract: both `deferred-only`
and a non-empty `services` list are set. -/
def w2 : World :=
  { baseWorld with deferred_only := true, services := some "svc1 svc2" }

/-- Witness for C2 at the concrete world `w2`. -/
theorem C2_restart_validation_witness :
    restart w2 =
      Except.ok [Event.actionFail "Cannot set deferred-only and services"] :=
  C2_restart_validation w2 "svc1 svc2" rfl (by decide)

/-- Claim C3: `remove_from_cloud` (when the API client is obtained without
fault) processes the relevant agents in order — reporting the non-fatal
error for each still-enabled agent but continuing, pausing each agent's
binary service and then deleting the agent — and after the loop sets the
unit status to `(blocked, UNIT_REMOVED_MSG)` and reports that same message
as the action result. -/
theorem C3_remove_from_cloud (w : World) (h : w.neutron_fault = none) :
    remove_from_cloud w =
      Except.ok ([Event.log "Stopping neutron-openvswitch service"] ++
        (_get_agents w).1 ++
        (_get_agents w).2.flatMap (fun agent =>
          (if agent.admin_state_up then
             [Event.functionFail "Consider disabling neutron agents before deletion"]
           else []) ++
          [Event.servicePause agent.binary, Event.deleteAgent agent.id]) ++
        [Event.log "Deleted neutron agents",
         Event.statusSet "blocked" UNIT_REMOVED_MSG,
         Event.functionSet [("message", UNIT_REMOVED_MSG)]]) := by
  unfold remove_from_cloud
  rw [h]
  simp [removeLoop_eq_flatMap]

/-- A world with one still-enabled and one disabled relevant agent. -/
def w3 : World :=
  { baseWorld with
      api_agents :=
        [{ id := "id1", binary := "neutron-l3-agent", admin_state_up := true },
         { id := "id2", binary := "neutron-openvswitch-agent", admin_state_up := false }] }

/-- Witness for C3 at the concrete world `w3`: the enabled agent triggers the
non-fatal report, processing continues, and the final status and result
follow the loop. -/
theorem C3_remove_from_cloud_witness :
    remove_from_cloud w3 =
      Except.ok [Event.log "Stopping neutron-openvswitch service",
        Event.functionFail "Consider disabling neutron agents before deletion",
        Event.servicePause "neutron-l3-agent",
        Event.deleteAgent "id1",
        Event.servicePause "neutron-openvswitch-agent",
        Event.deleteAgent "id2",
        Event.log "Deleted neutron agents",
        Event.statusSet "blocked" UNIT_REMOVED_MSG,
        Event.functionSet [("message", UNIT_REMOVED_MSG)]] :=
  C3_remove_from_cloud w3 rfl

/-- Claim C4: for any trace returned by `register_to_cloud`, (i) every
relevant agent binary (computed from the configuration via
`_get_agents_binaries`, not a live API query) is resumed; (ii) the status
store receives `(active, "Unit is ready")` if and only if the current
status is exactly `(blocked, UNIT_REMOVED_MSG)`; (iii) no other status
write ever occurs, so for every other current status the store is left
untouched; and (iv) in every case the result message naming the external
verification command is reported. -/
theorem C4_register_to_cloud (w : World) (events : List Event)
    (h : register_to_cloud w = Except.ok events) :
    (∀ binary, binary ∈ _get_agents_binaries w →
      Event.serviceResume binary ∈ events) ∧
    ((Event.statusSet "active" "Unit is ready" ∈ events) ↔
      (w.status.1 = "blocked" ∧ w.status.2 = UNIT_REMOVED_MSG)) ∧
    (∀ st msg, Event.statusSet st msg ∈ events →
      st = "active" ∧ msg = "Unit is ready") ∧
    Event.functionSet
      [("command", "openstack network agent list"),
       ("message",
        "Neutron agents started. Use the openstack commandto verify that agents are registered.")]
      ∈ events := by
  unfold register_to_cloud at h
  rw [Except.ok.injEq] at h
  subst h
  refine ⟨?_, ?_, ?_, ?_⟩
  · intro binary hb
    simp [List.mem_append]
    exact hb
  · by_cases hc : w.status.1 = "blocked" ∧ w.status.2 = UNIT_REMOVED_MSG <;>
      simp [hc]
  · intro st msg hmem
    by_cases hc : w.status.1 = "blocked" ∧ w.status.2 = UNIT_REMOVED_MSG <;>
      simp [hc] at hmem
    exact hmem
  · simp

/-- A world whose status was set by `remove-from-cloud`, with the DHCP and
metadata binaries enabled by configuration. -/
def w4 : World :=
  { baseWorld with
      enable_local_dhcp_and_metadata := true
      status := ("blocked", UNIT_REMOVED_MSG) }

/-- Witness for C4 at the concrete world `w4`: the blocked-for-removal
status is reset to `(active, "Unit is ready")`. -/
theorem C4_register_to_cloud_witness :
    Event.statusSet "active" "Unit is ready" ∈
      [Event.log "Starting neutron agents",
       Event.serviceResume "neutron-openvswitch-agent",
       Event.serviceResume "neutron-l3-agent",
       Event.serviceResume "neutron-metadata-agent",
       Event.serviceResume "neutron-dhcp-agent",
       Event.statusSet "active" "Unit is ready",
       Event.functionSet
         [("command", "openstack network agent list"),
          ("message",
           "Neutron agents started. Use the openstack commandto verify that agents are registered.")]] :=
  ((C4_register_to_cloud w4 _ rfl).2.1).2 ⟨rfl, rfl⟩

/-- Claim C5: for every registered action name (any name the registry lookup
resolves) and every fault raised by its handler, `main` catches the fault at
the dispatcher boundary and converts it to the single reported failure
`"Action {name} failed: {fault message}"`; the dispatcher itself returns
normally (its codomain carries no fault), so no handler fault ever escapes. -/
theorem C5_dispatcher_catch (action_name : String) (w : World)
    (action : World → Except String (List Event)) (e : String)
    (hfind : lookupAction action_name = some action)
    (hrun : action w = Except.error e) :
    mainDispatch action_name w =
      ([Event.actionFail ("Action " ++ action_name ++ " failed: " ++ e)], none) := by
  unfold mainDispatch
  rw [hfind]
  simp only []
  rw [hrun]

/-- A world in which `pause_unit_helper` raises. -/
def w5 : World := { baseWorld with helper_fault := some "uh oh" }

/-- Witness for C5: the registered `pause` action's fault is converted into
the reported failure message. -/
theorem C5_dispatcher_catch_witness :
    mainDispatch "pause" w5 =
      ([Event.actionFail "Action pause failed: uh oh"], none) :=
  C5_dispatcher_catch "pause" w5 pause "uh oh" rfl rfl

/-- Claim C6: the registry has exactly nine entries, and for every action
name the lookup does not resolve, `mainDispatch` reports the failure
`"Action {name} undefined"`, returns that exact string as its own result,
invokes no handler (its trace is that single report), and raises no fault. -/
theorem C6_unknown_action (action_name : String) (w : World)
    (h : lookupAction action_name = none) :
    ACTIONS.length = 9 ∧
    mainDispatch action_name w =
      ([Event.actionFail ("Action " ++ action_name ++ " undefined")],
       some ("Action " ++ action_name ++ " undefined")) := by
  refine ⟨rfl, ?_⟩
  unfold mainDispatch
  rw [h]

/-- Witness for C6 at the unregistered name `"foo"`. -/
theorem C6_unknown_action_witness :
    mainDispatch "foo" baseWorld =
      ([Event.actionFail "Action foo undefined"], some "Action foo undefined") :=
  (C6_unknown_action "foo" baseWorld rfl).2

/-- Claim C7: for every agent list returned by the remote API, `_get_agents`
returns exactly the agents whose binary is in
{neutron-openvswitch-agent, neutron-l3-agent}, extended with
{neutron-metadata-agent, neutron-dhcp-agent} if and only if the
`enable-local-dhcp-and-metadata` configuration flag is set; and when the API
returns zero agents it logs the warning and returns the empty sequence
rather than failing. -/
theorem C7_get_agents (w : World) :
    (∀ agent, agent ∈ (_get_agents w).2 ↔
      (agent ∈ w.api_agents ∧
        (agent.binary = "neutron-openvswitch-agent" ∨
         agent.binary = "neutron-l3-agent" ∨
         (w.enable_local_dhcp_and_metadata = true ∧
          (agent.binary = "neutron-metadata-agent" ∨
           agent.binary = "neutron-dhcp-agent"))))) ∧
    ((_get_agents w).1 =
      if w.api_agents.isEmpty then [Event.log "No agents registered"] else []) ∧
    (w.api_agents = [] →
      _get_agents w = ([Event.log "No agents registered"], [])) := by
  refine ⟨?_, rfl, ?_⟩
  · intro agent
    unfold _get_agents _get_agents_binaries
    cases hf : w.enable_local_dhcp_and_metadata <;>
      simp [hf, List.mem_filter]
  · intro h
    simp [_get_agents, h]

/-- A world whose API query returns no agents at all. -/
def w7 : World := { baseWorld with api_agents := [] }

/-- Witness for C7 at the concrete empty-API world `w7`: the warning is
logged and the empty sequence is returned. -/
theorem C7_get_agents_witness :
    _get_agents w7 = ([Event.log "No agents registered"], []) :=
  (C7_get_agents w7).2.2 rfl

/-- Claim C8: for every boolean `state` (and fault-free API client),
`_set_agents state` issues exactly one `update_agent` call per relevant
agent — the update trace is precisely one `updateAgent` event per agent of
`_get_agents`, in order, each setting `admin_state_up` to `state` — and the
`disable` and `enable` actions each invoke `_set_agents` exactly once, with
`false` and `true` respectively. -/
theorem C8_set_agents (w : World) (state : Bool) (h : w.neutron_fault = none) :
    _set_agents w state =
      Except.ok ((_get_agents w).1 ++
        (_get_agents w).2.map (fun agent => Event.updateAgent agent.id state) ++
        [Event.log ("Set neutron agents to admin_state_up: " ++ pyBool state)]) ∧
    disable w = _set_agents w false ∧
    enable w = _set_agents w true := by
  refine ⟨?_, rfl, rfl⟩
  unfold _set_agents
  rw [h]
  simp [setAgentsLoop_eq_map]

/-- A world with one relevant agent, for the C8 witness. -/
def w8 : World :=
  { baseWorld with
      api_agents :=
        [{ id := "id8", binary := "neutron-l3-agent", admin_state_up := true }] }

/-- Witness for C8 at the concrete world `w8` with `state = false`. -/
theorem C8_set_agents_witness :
    _set_agents w8 false =
      Except.ok [Event.updateAgent "id8" false,
        Event.log "Set neutron agents to admin_state_up: False"] :=
  (C8_set_agents w8 false rfl).1

/-- Claim C9: `pause` and `resume` each delegate to the role-wide
pause/resume helper with `openvswitch-switch` in the exclusion list; they
never issue a direct service pause or resume themselves (so the virtual
switch is never paused or resumed by this unit); and any fault from the
delegate propagates unchanged. -/
theorem C9_pause_resume (w : World) :
    (w.helper_fault = none →
      pause w = Except.ok [Event.pauseUnitHelper ["openvswitch-switch"]] ∧
      resume w = Except.ok [Event.resumeUnitHelper ["openvswitch-switch"]]) ∧
    (∀ e, w.helper_fault = some e →
      pause w = Except.error e ∧ resume w = Except.error e) ∧
    (∀ events, pause w = Except.ok events →
      ∀ service, Event.servicePause service ∉ events ∧
        Event.serviceResume service ∉ events) ∧
    (∀ events, resume w = Except.ok events →
      ∀ service, Event.servicePause service ∉ events ∧
        Event.serviceResume service ∉ events) := by
  refine ⟨?_, ?_, ?_, ?_⟩
  · intro h
    exact ⟨by simp [pause, h], by simp [resume, h]⟩
  · intro e h
    exact ⟨by simp [pause, h], by simp [resume, h]⟩
  · intro events h service
    cases hf : w.helper_fault <;> simp [pause, hf] at h
    simp [← h]
  · intro events h service
    cases hf : w.helper_fault <;> simp [resume, hf] at h
    simp [← h]

/-- Witness for C9 at the fault-free base world. -/
theorem C9_pause_resume_witness :
    pause baseWorld = Except.ok [Event.pauseUnitHelper ["openvswitch-switch"]] ∧
    resume baseWorld = Except.ok [Event.resumeUnitHelper ["openvswitch-switch"]] :=
  (C9_pause_resume baseWorld).1 rfl

/-- Claim C10 (implicit): when the `services` action parameter is absent
(the parameter store returns no value, so `action_get("services")` yields
`None`), the unconditional `.split()` in `restart` raises before any
argument-error message can be reported: `restart` faults (it never returns
a trace, so no `action_fail` argument error and no side effect occurs), and
the fault surfaces through the dispatcher catch-all as
`"Action restart-services failed: ..."`. -/
theorem C10_missing_services (w : World) (h : w.services = none) :
    restart w = Except.error "NoneType object has no attribute split" ∧
    (∀ events, restart w ≠ Except.ok events) ∧
    mainDispatch "restart-services" w =
      ([Event.actionFail
         "Action restart-services failed: NoneType object has no attribute split"],
       none) := by
  have hr : restart w = Except.error "NoneType object has no attribute split" := by
    unfold restart
    rw [h]
  refine ⟨hr, ?_, ?_⟩
  · intro events
    rw [hr]
    intro hcontra
    exact Except.noConfusion hcontra
  · have hl : lookupAction "restart-services" = some restart := rfl
    unfold mainDispatch
    rw [hl]
    simp only []
    rw [hr]
    rfl

/-- A world where the parameter store holds no `services` value. -/
def w10 : World := { baseWorld with services := none, deferred_only := true }

/-- Witness for C10 at the concrete world `w10`. -/
theorem C10_missing_services_witness :
    mainDispatch "restart-services" w10 =
      ([Event.actionFail
         "Action restart-services failed: NoneType object has no attribute split"],
       none) :=
  (C10_missing_services w10 rfl).2.2
